import Mathlib

/-!
# Verification of the pattern-drafting engine (src/app.py)

Shallow embedding of the drafting core of the Atelier CAD application.
The engine is the pure function `calculate_grid` (src/app.py, lines 25-63),
which maps a `Measurements` record and an options dictionary to a grid of
widths, vertical levels and dart intakes.  Python floats are modelled by
exact rationals (ℚ); all the constants of the source are dyadic or decimal,
so every quantity of interest is exact here.

The UI (lines 296-318) constrains the input ranges and fixes the default
options; those are embedded as `ui_valid` and `default_opts`.
-/

/-- The `Measurements` dataclass (src/app.py, lines 13-21): circumferences
`OG`/`OT`/`OB`, vertical lengths `DTS`/`DTP`/`DI`, shoulder data `VPK`/`ShP`,
bust-apex offsets `Vg`/`Cg`, ease allowances `Pruh`/`Ptal`/`Pbed`, and the
sleeve fields `pr_len`/`sleeve_len`/`sleeve_w`. -/
structure Measurements where
  OG : ℚ
  OT : ℚ
  OB : ℚ
  DTS : ℚ
  DTP : ℚ
  DI : ℚ
  VPK : ℚ
  ShP : ℚ
  Vg : ℚ
  Cg : ℚ
  Pruh : ℚ
  Ptal : ℚ
  Pbed : ℚ
  pr_len : ℚ
  sleeve_len : ℚ
  sleeve_w : ℚ

/-- The bust-size axis of the options dictionary.  The source branches only
on the string `'полная'` (full); `srednyaya` (`'средняя'`, medium) is the UI
default (line 318) and `malaya` stands for the small value. -/
inductive BustOpt
  | srednyaya
  | malaya
  | polnaya
deriving DecidableEq

/-- The shoulder-slope axis.  The source branches on `'покатые'` (sloped)
and `'прямые'` (square/straight); `normalnye` (`'нормальные'`) is the UI
default (line 318). -/
inductive ShoulderOpt
  | normalnye
  | pokatye
  | pryamye
deriving DecidableEq

/-- The posture axis.  `calculate_grid` never reads it (only the drawing
code does); `normalnaya` (`'нормальная'`) is the UI default (line 318). -/
inductive PostureOpt
  | normalnaya
  | sutulaya
  | pryamaya
deriving DecidableEq

/-- The `opts` dictionary passed to `calculate_grid` (line 318). -/
structure Opts where
  bust : BustOpt
  shoulder : ShoulderOpt
  posture : PostureOpt
deriving DecidableEq

set_option linter.unnecessarySeqFocus false

/-- The default options built by the UI (line 318):
`{'bust': 'средняя', 'shoulder': 'нормальные', 'posture': 'нормальная'}`. -/
def default_opts : Opts :=
  ⟨BustOpt.srednyaya, ShoulderOpt.normalnye, PostureOpt.normalnaya⟩

/-- The dictionary returned by `calculate_grid` (lines 62-63), flattened:
widths `W` (total/back/arm/front), levels `L` (A/G/T/B/N), waist darts `D`
(back/side/front) and `Misc` (bust_dart).  Note the record carries no
feasibility flag or warning field of any kind. -/
structure Grid where
  W_total : ℚ
  W_back : ℚ
  W_arm : ℚ
  W_front : ℚ
  L_A : ℚ
  L_G : ℚ
  L_T : ℚ
  L_B : ℚ
  L_N : ℚ
  D_back : ℚ
  D_side : ℚ
  D_front : ℚ
  bust_dart : ℚ

/-- `calculate_grid` (src/app.py, lines 25-63), transcribed clause by
clause.  Widths: `Total_W = (OG+Pruh)/2`, `W_back = OG/8 + 5.5` (−0.5 for a
full bust), `W_arm = OG/8 − 1.5` floored at 9.5, `W_front` the remainder.
Verticals: `Depth_Arm = OG/10 + 10.5 + 2.5`, +1.5 for sloped shoulders,
−1.0 for square shoulders; levels A=0, G=Depth_Arm, T=DTS, B=DTS+19, N=DI.
Darts: `Total_Dart = max 0 (Total_W − (OT/2 + Ptal/2))` split 25/45/30;
bust dart 2.0, 3.5 above OG=90, 5.0 above OG=105, +1.5 for a full bust. -/
def calculate_grid (m : Measurements) (opts : Opts) : Grid :=
  let Total_W := (m.OG + m.Pruh) / 2
  let W_back0 := m.OG / 8 + 5.5
  let W_back := if opts.bust = BustOpt.polnaya then W_back0 - 0.5 else W_back0
  let W_arm0 := m.OG / 8 - 1.5
  let W_arm := if W_arm0 < 9.5 then (9.5 : ℚ) else W_arm0
  let W_front := Total_W - W_back - W_arm
  let Depth_Arm0 := m.OG / 10 + 10.5 + 2.5
  let Depth_Arm :=
    if opts.shoulder = ShoulderOpt.pokatye then Depth_Arm0 + 1.5
    else if opts.shoulder = ShoulderOpt.pryamye then Depth_Arm0 - 1.0
    else Depth_Arm0
  let W_waist_needed := m.OT / 2 + m.Ptal / 2
  let Total_Dart := max 0 (Total_W - W_waist_needed)
  let bust_dart0 : ℚ := 2.0
  let bust_dart1 := if m.OG > 90 then (3.5 : ℚ) else bust_dart0
  let bust_dart2 := if m.OG > 105 then (5.0 : ℚ) else bust_dart1
  let bust_dart :=
    if opts.bust = BustOpt.polnaya then bust_dart2 + 1.5 else bust_dart2
  { W_total := Total_W
    W_back := W_back
    W_arm := W_arm
    W_front := W_front
    L_A := 0
    L_G := Depth_Arm
    L_T := m.DTS
    L_B := m.DTS + 19.0
    L_N := m.DI
    D_back := Total_Dart * 0.25
    D_side := Total_Dart * 0.45
    D_front := Total_Dart * 0.30
    bust_dart := bust_dart }

/-- The total waist-suppression volume `Total_Dart` of `calculate_grid`
(src/app.py, lines 47-48), exposed as a standalone quantity. -/
def total_dart_volume (m : Measurements) : ℚ :=
  max 0 ((m.OG + m.Pruh) / 2 - (m.OT / 2 + m.Ptal / 2))

/-- The input ranges imposed by the UI widgets (src/app.py, lines 296-312):
each `st.number_input`/`st.slider` declares a closed interval. -/
def ui_valid (m : Measurements) : Prop :=
  80 ≤ m.OG ∧ m.OG ≤ 130 ∧
  50 ≤ m.OT ∧ m.OT ≤ 110 ∧
  80 ≤ m.OB ∧ m.OB ≤ 140 ∧
  35 ≤ m.DTS ∧ m.DTS ≤ 50 ∧
  35 ≤ m.DTP ∧ m.DTP ≤ 60 ∧
  50 ≤ m.DI ∧ m.DI ≤ 150 ∧
  35 ≤ m.VPK ∧ m.VPK ≤ 50 ∧
  10 ≤ m.ShP ∧ m.ShP ≤ 20 ∧
  20 ≤ m.Vg ∧ m.Vg ≤ 40 ∧
  15 ≤ m.Cg ∧ m.Cg ≤ 25 ∧
  0 ≤ m.Pruh ∧ m.Pruh ≤ 10 ∧
  0 ≤ m.Ptal ∧ m.Ptal ≤ 10 ∧
  0 ≤ m.Pbed ∧ m.Pbed ≤ 10

instance (m : Measurements) : Decidable (ui_valid m) := by
  unfold ui_valid; infer_instance

/-- Scenario A of the spec: bust 103, waist 86, hip 102, back length 41,
front length 46, garment length 110, ease (5, 3, 2); the remaining fields
take the UI defaults. -/
def mA : Measurements :=
  { OG := 103, OT := 86, OB := 102, DTS := 41, DTP := 46, DI := 110
    VPK := 42, ShP := 13, Vg := 27, Cg := 20
    Pruh := 5, Ptal := 3, Pbed := 2
    pr_len := 0, sleeve_len := 0, sleeve_w := 0 }

/-- **C1 counterexample.**  On Scenario A's input the chest level returned
by `calculate_grid` is 23.3, not the claimed 22.8: the code's second
vertical offset (line 37) is 2.5, not 2.0. -/
theorem scenarioA_chest_level_not_228 :
    (calculate_grid mA default_opts).L_G = 23.3 ∧
      (calculate_grid mA default_opts).L_G ≠ 22.8 := by
  constructor <;> simp [calculate_grid, mA, default_opts] <;> norm_num

/-- **C1 (amended).**  Scenario A: total half-width 54.0, back-width
18.375, armhole-width 11.375 (unclamped, 103/8 − 1.5 = 11.375 > 9.5),
front-width 24.25, chest level 23.3 (= 103/10 + 10.5 + 2.5), waist level
41, hip level 60, hem level 110, total dart volume 9.5. -/
theorem scenarioA_grid_values :
    (calculate_grid mA default_opts).W_total = 54 ∧
      (calculate_grid mA default_opts).W_back = 18.375 ∧
      (calculate_grid mA default_opts).W_arm = 11.375 ∧
      (9.5 : ℚ) < 103 / 8 - 1.5 ∧
      (calculate_grid mA default_opts).W_front = 24.25 ∧
      (calculate_grid mA default_opts).L_G = 23.3 ∧
      (calculate_grid mA default_opts).L_T = 41 ∧
      (calculate_grid mA default_opts).L_B = 60 ∧
      (calculate_grid mA default_opts).L_N = 110 ∧
      total_dart_volume mA = 9.5 := by
  refine ⟨?_, ?_, ?_, by norm_num, ?_, ?_, ?_, ?_, ?_, ?_⟩ <;>
    simp [calculate_grid, total_dart_volume, mA, default_opts] <;> norm_num

/-- Scenario A's options with the shoulder axis set to sloped
(`'покатые'`). -/
def slopedA_opts : Opts :=
  ⟨BustOpt.srednyaya, ShoulderOpt.pokatye, PostureOpt.normalnaya⟩

/-- Scenario A's options with the shoulder axis set to square
(`'прямые'`). -/
def squareA_opts : Opts :=
  ⟨BustOpt.srednyaya, ShoulderOpt.pryamye, PostureOpt.normalnaya⟩

/-- **C2 counterexample.**  On Scenario A's input the sloped-shoulder
option raises the chest level by 1.5 (line 38: `Depth_Arm += 1.5`), not by
the claimed 1.0, and the resulting chest level is 24.8, not 23.8. -/
theorem shoulder_sloped_delta_not_one :
    (calculate_grid mA slopedA_opts).L_G -
        (calculate_grid mA default_opts).L_G ≠ 1 ∧
      (calculate_grid mA slopedA_opts).L_G ≠ 23.8 := by
  constructor <;>
    simp [calculate_grid, mA, default_opts, slopedA_opts] <;> norm_num

/-- **C2 (amended).**  For every measurements input the sloped-shoulder
option increases the chest level by exactly 1.5 and the square-shoulder
option decreases it by exactly 1.0, relative to the default shoulder
option with the other axes held fixed; Scenario A with sloped shoulders
yields chest level 24.8. -/
theorem shoulder_option_depth_deltas :
    (∀ (m : Measurements) (b : BustOpt) (p : PostureOpt),
        (calculate_grid m ⟨b, ShoulderOpt.pokatye, p⟩).L_G =
          (calculate_grid m ⟨b, ShoulderOpt.normalnye, p⟩).L_G + 1.5) ∧
      (∀ (m : Measurements) (b : BustOpt) (p : PostureOpt),
        (calculate_grid m ⟨b, ShoulderOpt.pryamye, p⟩).L_G =
          (calculate_grid m ⟨b, ShoulderOpt.normalnye, p⟩).L_G - 1.0) ∧
      (calculate_grid mA slopedA_opts).L_G = 24.8 := by
  refine ⟨fun m b p => ?_, fun m b p => ?_, ?_⟩ <;>
    simp [calculate_grid, mA, slopedA_opts] <;> norm_num

/-- An input on which the front-section width goes negative: bust
circumference 30 with zero ease.  (All such inputs lie outside the UI's
declared ranges, but `calculate_grid` itself accepts them.) -/
def mNeg : Measurements :=
  { OG := 30, OT := 60, OB := 90, DTS := 42, DTP := 44, DI := 100
    VPK := 42, ShP := 13, Vg := 27, Cg := 20
    Pruh := 0, Ptal := 0, Pbed := 0
    pr_len := 0, sleeve_len := 0, sleeve_w := 0 }

/-- **C3 (code bug).**  `calculate_grid` neither clamps a negative
front-section width nor attaches any feasibility flag: on `mNeg` it
returns `W_front = −3.75` unchanged, and the returned `Grid` record has no
warning field at all (lines 34 and 62-63 of src/app.py). -/
theorem front_width_negative_unflagged :
    (calculate_grid mNeg default_opts).W_front = -3.75 ∧
      (calculate_grid mNeg default_opts).W_front < 0 := by
  constructor <;>
    simp [calculate_grid, mNeg, default_opts] <;> norm_num

/-- **C4 (confirmed).**  For every measurements input with the default
figure options, the three section widths partition the total half-width
exactly (hence within 1e-6): `W_front` is defined as the remainder
`Total_W − W_back − W_arm` (line 34). -/
theorem width_partition (m : Measurements) :
    (calculate_grid m default_opts).W_back +
        (calculate_grid m default_opts).W_arm +
        (calculate_grid m default_opts).W_front =
      (calculate_grid m default_opts).W_total := by
  simp [calculate_grid, default_opts]

/-- Scenario C of the spec: bust 75 (below the UI's minimum, but accepted
by `calculate_grid`); remaining fields at UI defaults. -/
def m75 : Measurements :=
  { OG := 75, OT := 60, OB := 90, DTS := 42, DTP := 44, DI := 100
    VPK := 42, ShP := 13, Vg := 27, Cg := 20
    Pruh := 4, Ptal := 2, Pbed := 2
    pr_len := 0, sleeve_len := 0, sleeve_w := 0 }

/-- **C5 (confirmed).**  The armhole-section width is `OG/8 − 1.5` clamped
from below at 9.5 (lines 31-32), hence always at least 9.5, and the
front-section width is computed from the clamped value (line 34); for
bust 75 the unclamped value 7.875 is replaced by 9.5. -/
theorem armhole_width_clamped :
    (∀ (m : Measurements) (o : Opts),
        (calculate_grid m o).W_arm = max (m.OG / 8 - 1.5) 9.5 ∧
          9.5 ≤ (calculate_grid m o).W_arm ∧
          (calculate_grid m o).W_front =
            (calculate_grid m o).W_total - (calculate_grid m o).W_back -
              (calculate_grid m o).W_arm) ∧
      (75 / 8 - 1.5 : ℚ) = 7.875 ∧ (7.875 : ℚ) < 9.5 ∧
      (calculate_grid m75 default_opts).W_arm = 9.5 ∧
      (calculate_grid m75 default_opts).W_front =
        (75 + 4) / 2 - (75 / 8 + 5.5) - 9.5 := by
  refine ⟨fun m o => ⟨?_, ?_, ?_⟩, by norm_num, by norm_num, ?_, ?_⟩
  · simp only [calculate_grid]
    rcases lt_or_le (m.OG / 8 - 1.5) 9.5 with h | h
    · rw [if_pos h, max_eq_right h.le]
    · rw [if_neg (not_lt.mpr h), max_eq_left h]
  · simp only [calculate_grid]
    rcases lt_or_le (m.OG / 8 - 1.5) 9.5 with h | h
    · rw [if_pos h]
    · rw [if_neg (not_lt.mpr h)]; exact h
  · simp [calculate_grid]
  · simp [calculate_grid, m75, default_opts] <;> norm_num
  · simp [calculate_grid, m75, default_opts] <;> norm_num

/-- **C6 (confirmed).**  The waist-dart intakes are the 25/45/30 split of
the total dart volume (lines 50-54): they sum to it exactly (hence within
1e-6), they all vanish when the total is clamped to 0, and the side dart
is strictly the largest whenever the total is positive. -/
theorem waist_dart_allocation (m : Measurements) (o : Opts) :
    (calculate_grid m o).D_back + (calculate_grid m o).D_side +
          (calculate_grid m o).D_front = total_dart_volume m ∧
      (total_dart_volume m = 0 →
        (calculate_grid m o).D_back = 0 ∧ (calculate_grid m o).D_side = 0 ∧
          (calculate_grid m o).D_front = 0) ∧
      (0 < total_dart_volume m →
        (calculate_grid m o).D_back < (calculate_grid m o).D_side ∧
          (calculate_grid m o).D_front < (calculate_grid m o).D_side) := by
  have hb : (calculate_grid m o).D_back = total_dart_volume m * 0.25 := by
    simp [calculate_grid, total_dart_volume]
  have hs : (calculate_grid m o).D_side = total_dart_volume m * 0.45 := by
    simp [calculate_grid, total_dart_volume]
  have hf : (calculate_grid m o).D_front = total_dart_volume m * 0.30 := by
    simp [calculate_grid, total_dart_volume]
  refine ⟨?_, fun h => ?_, fun h => ?_⟩
  · rw [hb, hs, hf]; ring
  · rw [hb, hs, hf, h]; norm_num
  · rw [hb, hs, hf]
    constructor <;> nlinarith [h]

/-- Concrete instance of `waist_dart_allocation` at Scenario A, where the
total dart volume 9.5 is positive. -/
theorem waist_dart_allocation_witness :
    (calculate_grid mA default_opts).D_back <
        (calculate_grid mA default_opts).D_side ∧
      (calculate_grid mA default_opts).D_front <
        (calculate_grid mA default_opts).D_side :=
  (waist_dart_allocation mA default_opts).2.2
    (by norm_num [total_dart_volume, mA])

/-- Closed form of the bust dart (src/app.py, lines 57-60): the step
function of `OG` plus the flat full-bust bonus. -/
lemma bust_dart_closed_form (m : Measurements) (o : Opts) :
    (calculate_grid m o).bust_dart =
      (if m.OG > 105 then (5 : ℚ) else if m.OG > 90 then 3.5 else 2) +
        (if o.bust = BustOpt.polnaya then 1.5 else 0) := by
  rcases o with ⟨b, sh, po⟩
  cases b <;> simp [calculate_grid] <;> split_ifs <;> norm_num

/-- **C7 (confirmed).**  The bust dart is the step function of bust
circumference — base 2.0, 3.5 above 90, 5.0 above 105 — plus a flat +1.5
when the bust option is full, independent of circumference; at fixed
options it is non-decreasing in the bust circumference. -/
theorem bust_dart_step_monotone :
    (∀ (m : Measurements) (o : Opts),
        (calculate_grid m o).bust_dart =
          (if m.OG > 105 then (5 : ℚ) else if m.OG > 90 then 3.5 else 2) +
            (if o.bust = BustOpt.polnaya then 1.5 else 0)) ∧
      (∀ (m₁ m₂ : Measurements) (o : Opts), m₁.OG ≤ m₂.OG →
        (calculate_grid m₁ o).bust_dart ≤ (calculate_grid m₂ o).bust_dart) := by
  refine ⟨bust_dart_closed_form, fun m₁ m₂ o h => ?_⟩
  rw [bust_dart_closed_form, bust_dart_closed_form]
  have hstep : (if m₁.OG > 105 then (5 : ℚ) else if m₁.OG > 90 then 3.5 else 2) ≤
      (if m₂.OG > 105 then (5 : ℚ) else if m₂.OG > 90 then 3.5 else 2) := by
    split_ifs <;> linarith
  linarith

/-- Concrete instance of `bust_dart_step_monotone`: Scenario C's bust 75
is at most Scenario A's bust 103, and the darts compare accordingly. -/
theorem bust_dart_step_monotone_witness :
    (calculate_grid m75 default_opts).bust_dart ≤
      (calculate_grid mA default_opts).bust_dart :=
  bust_dart_step_monotone.2 m75 mA default_opts (by norm_num [m75, mA])

/-- A UI-valid input whose garment length (50) is below its hip level
(42 + 19 = 61): every field is inside the ranges of src/app.py lines
296-312, yet the hem line lands above the hip line. -/
def mBad : Measurements :=
  { OG := 96, OT := 76, OB := 104, DTS := 42, DTP := 44, DI := 50
    VPK := 42, ShP := 13, Vg := 27, Cg := 20
    Pruh := 4, Ptal := 2, Pbed := 2
    pr_len := 0, sleeve_len := 0, sleeve_w := 0 }

/-- **C8 counterexample.**  `calculate_grid` performs no input validation
(lines 41-44 build the level dictionary unconditionally): on the UI-valid
input `mBad` with garment length 50 ≤ hip level 61 it returns normally
with hem level strictly below hip level, instead of failing fast. -/
theorem levels_violation_silently_accepted :
    ui_valid mBad ∧
      (calculate_grid mBad default_opts).L_N <
        (calculate_grid mBad default_opts).L_B := by
  constructor
  · norm_num [ui_valid, mBad]
  · simp [calculate_grid, mBad, default_opts] <;> norm_num

/-- **C8 (amended).**  `calculate_grid` never rejects an input; for
UI-valid inputs whose garment length exceeds hip level (back length + 19)
the levels are strictly increasing, `neck < chest < waist < hip < hem`,
while inputs with garment length ≤ hip level are silently accepted and
yield non-increasing levels (see the counterexample). -/
theorem levels_strict_mono_conditional (m : Measurements) (o : Opts)
    (hv : ui_valid m) (hlen : m.DTS + 19 < m.DI) :
    (calculate_grid m o).L_A < (calculate_grid m o).L_G ∧
      (calculate_grid m o).L_G < (calculate_grid m o).L_T ∧
      (calculate_grid m o).L_T < (calculate_grid m o).L_B ∧
      (calculate_grid m o).L_B < (calculate_grid m o).L_N := by
  obtain ⟨hOG1, hOG2, _, _, _, _, hDTS1, _, _, _, _, _, _, _, _, _, _, _,
    _, _, _, _, _, _, _, _⟩ := hv
  rcases o with ⟨b, sh, po⟩
  cases sh <;> simp [calculate_grid] <;>
    refine ⟨by linarith, by linarith, by linarith, by linarith⟩

/-- Concrete instance of `levels_strict_mono_conditional` at Scenario A,
which is UI-valid and has garment length 110 > hip level 60. -/
theorem levels_strict_mono_conditional_witness :
    (calculate_grid mA default_opts).L_A <
        (calculate_grid mA default_opts).L_G ∧
      (calculate_grid mA default_opts).L_G <
        (calculate_grid mA default_opts).L_T ∧
      (calculate_grid mA default_opts).L_T <
        (calculate_grid mA default_opts).L_B ∧
      (calculate_grid mA default_opts).L_B <
        (calculate_grid mA default_opts).L_N :=
  levels_strict_mono_conditional mA default_opts
    (by norm_num [ui_valid, mA]) (by norm_num [mA])

/-- Modelled from the spec: the Sleeve Cap Resolver (spec §4.5) is missing
from src/ — the `Measurements` dataclass declares the sleeve fields
`pr_len`, `sleeve_len`, `sleeve_w` (line 21) but no sleeve drafting code
exists.  Cap height = armhole-curve length / 3 plus the coupling delta
`(adjustedArmholeDepth − nominalArmholeDepth) * dampingFactor` with
dampingFactor 0.4 (spec §4.2, §4.5 and Scenario B). -/
def sleeve_cap_height (armhole_len adjDepth nomDepth : ℚ) : ℚ :=
  armhole_len / 3 + (adjDepth - nomDepth) * 0.4

/-- **C9 (confirmed, spec-modelled).**  Holding the armhole-curve length
and the nominal depth fixed, the sleeve cap height is strictly increasing
in the adjusted armhole depth, and its slope is exactly the damping
factor 0.4 (within the documented 0.4-0.5 band). -/
theorem sleeve_cap_height_monotone (armhole_len adj₁ adj₂ nom : ℚ)
    (h : adj₁ < adj₂) :
    sleeve_cap_height armhole_len adj₁ nom <
        sleeve_cap_height armhole_len adj₂ nom ∧
      sleeve_cap_height armhole_len adj₂ nom -
          sleeve_cap_height armhole_len adj₁ nom = (adj₂ - adj₁) * 0.4 := by
  unfold sleeve_cap_height
  constructor
  · linarith
  · ring

/-- Concrete instance of `sleeve_cap_height_monotone`: Scenario A's chest
level 23.3 deepened to Scenario B's 24.8 raises the cap height by
1.5 × 0.4 = 0.6. -/
theorem sleeve_cap_height_monotone_witness :
    sleeve_cap_height 40 23.3 23.3 < sleeve_cap_height 40 24.8 23.3 ∧
      sleeve_cap_height 40 24.8 23.3 - sleeve_cap_height 40 23.3 23.3 =
        (24.8 - 23.3) * 0.4 :=
  sleeve_cap_height_monotone 40 23.3 24.8 23.3 (by norm_num)

/-- **C10 (confirmed).**  Switching only the bust option from the default
(`'средняя'`) to full (`'полная'`) changes exactly three outputs: the
back width drops by 0.5 (line 29), the front width — the remainder —
grows by 0.5, and the bust dart grows by 1.5 (line 60); the total
half-width, armhole width, all five levels and the three waist-dart
intakes are unchanged. -/
theorem bust_option_frame_effect (m : Measurements) (sh : ShoulderOpt)
    (po : PostureOpt) :
    (calculate_grid m ⟨BustOpt.polnaya, sh, po⟩).W_back =
        (calculate_grid m ⟨BustOpt.srednyaya, sh, po⟩).W_back - 0.5 ∧
      (calculate_grid m ⟨BustOpt.polnaya, sh, po⟩).W_front =
        (calculate_grid m ⟨BustOpt.srednyaya, sh, po⟩).W_front + 0.5 ∧
      (calculate_grid m ⟨BustOpt.polnaya, sh, po⟩).bust_dart =
        (calculate_grid m ⟨BustOpt.srednyaya, sh, po⟩).bust_dart + 1.5 ∧
      (calculate_grid m ⟨BustOpt.polnaya, sh, po⟩).W_total =
        (calculate_grid m ⟨BustOpt.srednyaya, sh, po⟩).W_total ∧
      (calculate_grid m ⟨BustOpt.polnaya, sh, po⟩).W_arm =
        (calculate_grid m ⟨BustOpt.srednyaya, sh, po⟩).W_arm ∧
      (calculate_grid m ⟨BustOpt.polnaya, sh, po⟩).L_A =
        (calculate_grid m ⟨BustOpt.srednyaya, sh, po⟩).L_A ∧
      (calculate_grid m ⟨BustOpt.polnaya, sh, po⟩).L_G =
        (calculate_grid m ⟨BustOpt.srednyaya, sh, po⟩).L_G ∧
      (calculate_grid m ⟨BustOpt.polnaya, sh, po⟩).L_T =
        (calculate_grid m ⟨BustOpt.srednyaya, sh, po⟩).L_T ∧
      (calculate_grid m ⟨BustOpt.polnaya, sh, po⟩).L_B =
        (calculate_grid m ⟨BustOpt.srednyaya, sh, po⟩).L_B ∧
      (calculate_grid m ⟨BustOpt.polnaya, sh, po⟩).L_N =
        (calculate_grid m ⟨BustOpt.srednyaya, sh, po⟩).L_N ∧
      (calculate_grid m ⟨BustOpt.polnaya, sh, po⟩).D_back =
        (calculate_grid m ⟨BustOpt.srednyaya, sh, po⟩).D_back ∧
      (calculate_grid m ⟨BustOpt.polnaya, sh, po⟩).D_side =
        (calculate_grid m ⟨BustOpt.srednyaya, sh, po⟩).D_side ∧
      (calculate_grid m ⟨BustOpt.polnaya, sh, po⟩).D_front =
        (calculate_grid m ⟨BustOpt.srednyaya, sh, po⟩).D_front := by
  refine ⟨?_, ?_, ?_, ?_, ?_, ?_, ?_, ?_, ?_, ?_, ?_, ?_, ?_⟩ <;>
    simp [calculate_grid] <;> ring
